import Mathlib

/-!
Shallow embedding of `src/calabi_yau.py` (the `plot_calabi_yau` routine and
the `__main__` batch driver), with theorems about its mesh generation,
bounding-cube computation, batch enumeration and output-file naming.

Real/complex arithmetic of the source (numpy doubles) is modelled exactly
over `ℝ` and `ℂ`; the complex fractional power `** (2/n)` of numpy uses the
principal branch, matching Mathlib's `Complex.cpow`.
-/

namespace CalabiYau

/-- Constant `n = 5` in `plot_calabi_yau`: the order of the roots of unity and the
number of values each sheet index ranges over. -/
def n : ℕ := 5

/-- Source constant `xi_steps = 25`. -/
def xi_steps : ℕ := 25

/-- Source constant `theta_steps = 25`. -/
def theta_steps : ℕ := 25

/-- Conversion `np.radians(d)`: degrees to radians, `d * π / 180`. -/
noncomputable def radians (d : ℝ) : ℝ := d * Real.pi / 180

/-- Sampling `np.linspace(a, b, num)` at index `k`: `a + k * (b - a) / (num - 1)`,
`num` evenly spaced samples from `a` to `b` inclusive. -/
noncomputable def linspace (a b : ℝ) (num : ℕ) (k : ℕ) : ℝ :=
  a + k * ((b - a) / ((num : ℝ) - 1))

/-- Array `xi = np.linspace(-1.0, 1.0, xi_steps)` as a function of the index. -/
noncomputable def xiF (k : ℕ) : ℝ := linspace (-1) 1 xi_steps k

/-- Array `theta = np.linspace(0, np.pi / 2, theta_steps)`. -/
noncomputable def thetaF (k : ℕ) : ℝ := linspace 0 (Real.pi / 2) theta_steps k

/-- The `xi` array as a list (25 entries). -/
noncomputable def xiList : List ℝ := (List.range xi_steps).map xiF

/-- The `theta` array as a list (25 entries). -/
noncomputable def thetaList : List ℝ := (List.range theta_steps).map thetaF

/-- Grids `Xi, Theta = np.meshgrid(xi, theta)`: `Xi[r][c] = xi[c]` (columns vary ξ). -/
noncomputable def Xi (r c : ℕ) : ℝ := xiF c

/-- Grid `Theta[r][c] = theta[r]` (rows vary θ). -/
noncomputable def Theta (r c : ℕ) : ℝ := thetaF r

/-- Grid `w = Xi + 1j * Theta`, the complex parameter grid. -/
noncomputable def wgrid (r c : ℕ) : ℂ := (Xi r c : ℂ) + Complex.I * (Theta r c : ℂ)

/-- Phase factor `np.exp(2j * np.pi * k / n)`: the fifth-root-of-unity phase factor. -/
noncomputable def phase (k : ℕ) : ℂ :=
  Complex.exp (2 * Complex.I * (Real.pi : ℂ) * (k : ℂ) / (n : ℂ))

/-- Value `z1 = phase1 * (np.cosh(w)) ** (2 / n)` at grid point `(r, c)` for sheet
index `k1`; the power is the principal-branch complex power. -/
noncomputable def z1v (k1 r c : ℕ) : ℂ :=
  phase k1 * Complex.cosh (wgrid r c) ^ ((2 : ℂ) / (n : ℂ))

/-- Value `z2 = phase2 * (np.sinh(w)) ** (2 / n)` for sheet index `k2`. -/
noncomputable def z2v (k2 r c : ℕ) : ℂ :=
  phase k2 * Complex.sinh (wgrid r c) ^ ((2 : ℂ) / (n : ℂ))

/-- Coordinate `X = z1.real`. The camera parameters `elev`, `azim` and the projection
angle `alpha_deg` are arguments of `plot_calabi_yau` but do not enter `X`. -/
noncomputable def meshX (elev azim alpha_deg : ℝ) (k1 r c : ℕ) : ℝ :=
  (z1v k1 r c).re

/-- Coordinate `Y = z2.real`. -/
noncomputable def meshY (elev azim alpha_deg : ℝ) (k2 r c : ℕ) : ℝ :=
  (z2v k2 r c).re

/-- Coordinate `Z = np.cos(alpha) * z1.imag + np.sin(alpha) * z2.imag` with
`alpha = np.radians(alpha_deg)`. -/
noncomputable def meshZ (elev azim alpha_deg : ℝ) (k1 k2 r c : ℕ) : ℝ :=
  Real.cos (radians alpha_deg) * (z1v k1 r c).im +
    Real.sin (radians alpha_deg) * (z2v k2 r c).im

/-- The order in which the double loop `for k1 in range(n): for k2 in range(n)`
visits the sheet index pairs. -/
def sheetOrder : List (ℕ × ℕ) :=
  (List.range n).flatMap fun k1 => (List.range n).map fun k2 => (k1, k2)

/-- Flattening `A.flatten()` for a 25×25 grid `A[r][c]`: row-major enumeration. -/
noncomputable def gridFlatten (f : ℕ → ℕ → ℝ) : List ℝ :=
  (List.range theta_steps).flatMap fun r => (List.range xi_steps).map fun c => f r c

/-- Pooled `full_x = np.concatenate([x.flatten() for x in all_x])`: the pooled X
coordinates of all 25 sheets, in loop order. -/
noncomputable def fullX (elev azim alpha_deg : ℝ) : List ℝ :=
  sheetOrder.flatMap fun kk => gridFlatten (meshX elev azim alpha_deg kk.1)

/-- Pooled Y coordinates of all 25 sheets. -/
noncomputable def fullY (elev azim alpha_deg : ℝ) : List ℝ :=
  sheetOrder.flatMap fun kk => gridFlatten (meshY elev azim alpha_deg kk.2)

/-- Pooled Z coordinates of all 25 sheets. -/
noncomputable def fullZ (elev azim alpha_deg : ℝ) : List ℝ :=
  sheetOrder.flatMap fun kk => gridFlatten (meshZ elev azim alpha_deg kk.1 kk.2)

/-- Reduction `arr.max()` of a numpy array, as the maximum of a list of reals.
(numpy raises on an empty array; every list it is applied to here is
nonempty, and the `[]` case is an arbitrary default.) -/
noncomputable def npMax : List ℝ → ℝ
  | [] => 0
  | x :: xs => xs.foldl max x

/-- Reduction `arr.min()` of a numpy array. -/
noncomputable def npMin : List ℝ → ℝ
  | [] => 0
  | x :: xs => xs.foldl min x

/-- Half-range `max_range`: the largest of the three pooled coordinate ranges, halved. -/
noncomputable def maxRange (elev azim alpha_deg : ℝ) : ℝ :=
  npMax
    [npMax (fullX elev azim alpha_deg) - npMin (fullX elev azim alpha_deg),
     npMax (fullY elev azim alpha_deg) - npMin (fullY elev azim alpha_deg),
     npMax (fullZ elev azim alpha_deg) - npMin (fullZ elev azim alpha_deg)] / 2

/-- Midpoint `mid_x = (full_x.max() + full_x.min()) * 0.5`. -/
noncomputable def midX (elev azim alpha_deg : ℝ) : ℝ :=
  (npMax (fullX elev azim alpha_deg) + npMin (fullX elev azim alpha_deg)) * 0.5

/-- Midpoint `mid_y`. -/
noncomputable def midY (elev azim alpha_deg : ℝ) : ℝ :=
  (npMax (fullY elev azim alpha_deg) + npMin (fullY elev azim alpha_deg)) * 0.5

/-- Midpoint `mid_z`. -/
noncomputable def midZ (elev azim alpha_deg : ℝ) : ℝ :=
  (npMax (fullZ elev azim alpha_deg) + npMin (fullZ elev azim alpha_deg)) * 0.5

/-- Limits `ax.set_xlim(mid_x - max_range, mid_x + max_range)`. -/
noncomputable def xlim (elev azim alpha_deg : ℝ) : ℝ × ℝ :=
  (midX elev azim alpha_deg - maxRange elev azim alpha_deg,
   midX elev azim alpha_deg + maxRange elev azim alpha_deg)

/-- Limits `ax.set_ylim(mid_y - max_range, mid_y + max_range)`. -/
noncomputable def ylim (elev azim alpha_deg : ℝ) : ℝ × ℝ :=
  (midY elev azim alpha_deg - maxRange elev azim alpha_deg,
   midY elev azim alpha_deg + maxRange elev azim alpha_deg)

/-- Limits `ax.set_zlim(mid_z - max_range, mid_z + max_range)`. -/
noncomputable def zlim (elev azim alpha_deg : ℝ) : ℝ × ℝ :=
  (midZ elev azim alpha_deg - maxRange elev azim alpha_deg,
   midZ elev azim alpha_deg + maxRange elev azim alpha_deg)

/-- Python `int(x)` on a float: truncation toward zero. -/
noncomputable def pyInt (x : ℝ) : ℤ := if 0 ≤ x then ⌊x⌋ else ⌈x⌉

/-- The f-string `f"images/calabi_yau_elev{E}_azim{A}_alpha{P}.png"` applied
to already-truncated integer values. -/
def filenameInt (e a p : ℤ) : String :=
  "images/calabi_yau_elev" ++ toString e ++ "_azim" ++ toString a ++
    "_alpha" ++ toString p ++ ".png"

/-- Output path built by the f-string from the three inputs truncated by `int()`. -/
noncomputable def filename (elev azim alpha_deg : ℝ) : String :=
  filenameInt (pyInt elev) (pyInt azim) (pyInt alpha_deg)

/-- The file paths written by one invocation of `plot_calabi_yau`: exactly
the single `plt.savefig(filename)` call. -/
noncomputable def plotWrites (elev azim alpha_deg : ℝ) : List String :=
  [filename elev azim alpha_deg]

/-- Modelled from the spec: `plt.savefig` (an external matplotlib call, not
code of this repository) stores the rendered image at `path`, replacing any
existing file at that path without warning. The file system is a map from
paths to contents. -/
def writeFile (fs : String → Option ℕ) (path : String) (img : ℕ) :
    String → Option ℕ :=
  fun q => if q = path then some img else fs q

/-- Python `range(start, stop, step)` for a positive step, as a list. -/
def pyRange (start stop step : ℕ) : List ℕ :=
  (List.range ((stop - start + step - 1) / step)).map fun i => start + step * i

/-- The parameter triples `(elev, azim, alpha)` of the 96 calls made by the
`--all` batch mode: `for azim in range(0, 360, 15): for alpha in
range(0, 120, 30): plot_calabi_yau(32, azim, alpha)`. -/
def batchCalls : List (ℕ × ℕ × ℕ) :=
  (pyRange 0 360 15).flatMap fun azim =>
    (pyRange 0 120 30).map fun alpha => (32, azim, alpha)

/-- The output file paths of the batch mode, one per call (the arguments are
integers, so `int()` in the f-string leaves them unchanged). -/
def batchFiles : List String :=
  batchCalls.map fun t => filenameInt (t.1 : ℤ) (t.2.1 : ℤ) (t.2.2 : ℤ)

/-- Proof helper: an injection-respecting code of a string (equal strings get
equal codes), used to decide distinctness of the batch output paths cheaply. -/
def strCode (s : String) : ℕ := s.data.foldl (fun a c => a * 1114112 + c.toNat) 0

/-- Truncation `int()` of a nonnegative integer-valued real is that integer. -/
theorem pyInt_natCast (m : ℕ) : pyInt (m : ℝ) = (m : ℤ) := by
  unfold pyInt
  rw [if_pos (by positivity)]
  exact_mod_cast Int.floor_natCast m

/-- C3: when `alpha_degrees = 0` the computed Z value equals `Im(z1)` exactly
at every grid point of every sheet, for all elevation and azimuth inputs. -/
theorem C3_alpha_zero_Z_is_im_z1 (elev azim : ℝ) (k1 k2 r c : ℕ) :
    meshZ elev azim 0 k1 k2 r c = (z1v k1 r c).im := by
  unfold meshZ radians
  norm_num

/-- C4: when `alpha_degrees = 90` the computed Z value equals `Im(z2)` exactly
at every grid point of every sheet, for all elevation and azimuth inputs. -/
theorem C4_alpha_ninety_Z_is_im_z2 (elev azim : ℝ) (k1 k2 r c : ℕ) :
    meshZ elev azim 90 k1 k2 r c = (z2v k2 r c).im := by
  have h : radians 90 = Real.pi / 2 := by unfold radians; ring
  unfold meshZ
  rw [h, Real.cos_pi_div_two, Real.sin_pi_div_two]
  ring

/-- C9: the X and Y arrays do not depend on `alpha_degrees`, and none of the
X, Y, Z arrays depend on the elevation or azimuth inputs: two runs differing
only in `alpha_degrees` have identical X and Y, and two runs differing only
in elevation and/or azimuth have identical X, Y and Z. -/
theorem C9_camera_independence (e a p eh ah ph : ℝ) :
    meshX e a p = meshX eh ah ph ∧ meshY e a p = meshY eh ah ph ∧
      meshZ e a p = meshZ eh ah p :=
  ⟨rfl, rfl, rfl⟩

/-- C10: every sheet is a phase rotation of the base sheet: the `z1` grid for
sheet index `k1` is `exp(2πi·k1/5)` times the `z1` grid of sheet `(0,0)`, and
likewise `z2` for `k2`, the underlying `cosh(w)^(2/5)` and `sinh(w)^(2/5)`
being the same across all sheet iterations. -/
theorem C10_sheets_phase_rotation (k1 k2 r c : ℕ) :
    z1v k1 r c = phase k1 * z1v 0 r c ∧ z2v k2 r c = phase k2 * z2v 0 r c := by
  have h0 : phase 0 = 1 := by
    unfold phase
    norm_num [Complex.exp_zero]
  constructor
  · unfold z1v; rw [h0, one_mul]
  · unfold z2v; rw [h0, one_mul]

/-- Helper: the phase factor written with the factors in the spec's order. -/
theorem phase_eq (k : ℕ) :
    phase k = Complex.exp (2 * Real.pi * Complex.I * (k : ℂ) / 5) := by
  unfold phase n
  congr 1
  push_cast
  ring

/-- Helper: the exponent `2 / n` with `n = 5`. -/
theorem exponent_eq : (2 : ℂ) / (n : ℂ) = (2 : ℂ) / 5 := by
  unfold n
  norm_num

/-- C1: for every input triple the generator enumerates exactly the 25 sheet
index pairs of `{0,...,4} × {0,...,4}`, k1 outer and k2 inner, and each
sheet's coordinates are `X = Re(phase1·cosh(w)^(2/5))`,
`Y = Re(phase2·sinh(w)^(2/5))`,
`Z = cos(α)·Im(z1) + sin(α)·Im(z2)` with `phase1 = exp(2πi·k1/5)`,
`phase2 = exp(2πi·k2/5)`, `α` the degree input in radians, and the powers
taken on the principal branch (`Complex.cpow`). -/
theorem C1_sheet_enumeration_and_formulas (elev azim alpha_deg : ℝ)
    (k1 k2 r c : ℕ) :
    sheetOrder =
      [(0, 0), (0, 1), (0, 2), (0, 3), (0, 4),
       (1, 0), (1, 1), (1, 2), (1, 3), (1, 4),
       (2, 0), (2, 1), (2, 2), (2, 3), (2, 4),
       (3, 0), (3, 1), (3, 2), (3, 3), (3, 4),
       (4, 0), (4, 1), (4, 2), (4, 3), (4, 4)] ∧
    meshX elev azim alpha_deg k1 r c =
      (Complex.exp (2 * Real.pi * Complex.I * (k1 : ℂ) / 5) *
        Complex.cosh (wgrid r c) ^ ((2 : ℂ) / 5)).re ∧
    meshY elev azim alpha_deg k2 r c =
      (Complex.exp (2 * Real.pi * Complex.I * (k2 : ℂ) / 5) *
        Complex.sinh (wgrid r c) ^ ((2 : ℂ) / 5)).re ∧
    meshZ elev azim alpha_deg k1 k2 r c =
      Real.cos (radians alpha_deg) *
          (Complex.exp (2 * Real.pi * Complex.I * (k1 : ℂ) / 5) *
            Complex.cosh (wgrid r c) ^ ((2 : ℂ) / 5)).im +
        Real.sin (radians alpha_deg) *
          (Complex.exp (2 * Real.pi * Complex.I * (k2 : ℂ) / 5) *
            Complex.sinh (wgrid r c) ^ ((2 : ℂ) / 5)).im := by
  refine ⟨by decide, ?_, ?_, ?_⟩
  · unfold meshX z1v
    rw [phase_eq, exponent_eq]
  · unfold meshY z2v
    rw [phase_eq, exponent_eq]
  · unfold meshZ z1v z2v
    rw [phase_eq k1, phase_eq k2, exponent_eq]

/-- C2: the axis limits form a cube: each of the three limit widths equals
the maximum over the three axes of `max − min` of the pooled coordinates of
all 25 sheets, and each axis interval is centered on that axis's own
midpoint `(max + min) / 2`. -/
theorem C2_bounding_cube_limits (elev azim alpha_deg : ℝ) :
    ((xlim elev azim alpha_deg).2 - (xlim elev azim alpha_deg).1 =
      npMax
        [npMax (fullX elev azim alpha_deg) - npMin (fullX elev azim alpha_deg),
         npMax (fullY elev azim alpha_deg) - npMin (fullY elev azim alpha_deg),
         npMax (fullZ elev azim alpha_deg) - npMin (fullZ elev azim alpha_deg)]) ∧
    ((ylim elev azim alpha_deg).2 - (ylim elev azim alpha_deg).1 =
      npMax
        [npMax (fullX elev azim alpha_deg) - npMin (fullX elev azim alpha_deg),
         npMax (fullY elev azim alpha_deg) - npMin (fullY elev azim alpha_deg),
         npMax (fullZ elev azim alpha_deg) - npMin (fullZ elev azim alpha_deg)]) ∧
    ((zlim elev azim alpha_deg).2 - (zlim elev azim alpha_deg).1 =
      npMax
        [npMax (fullX elev azim alpha_deg) - npMin (fullX elev azim alpha_deg),
         npMax (fullY elev azim alpha_deg) - npMin (fullY elev azim alpha_deg),
         npMax (fullZ elev azim alpha_deg) - npMin (fullZ elev azim alpha_deg)]) ∧
    ((xlim elev azim alpha_deg).1 + (xlim elev azim alpha_deg).2) / 2 =
      (npMax (fullX elev azim alpha_deg) + npMin (fullX elev azim alpha_deg)) / 2 ∧
    ((ylim elev azim alpha_deg).1 + (ylim elev azim alpha_deg).2) / 2 =
      (npMax (fullY elev azim alpha_deg) + npMin (fullY elev azim alpha_deg)) / 2 ∧
    ((zlim elev azim alpha_deg).1 + (zlim elev azim alpha_deg).2) / 2 =
      (npMax (fullZ elev azim alpha_deg) + npMin (fullZ elev azim alpha_deg)) / 2 := by
  unfold xlim ylim zlim midX midY midZ maxRange
  refine ⟨?_, ?_, ?_, ?_, ?_, ?_⟩ <;> ring

/-- C5: the ξ sequence has exactly 25 evenly spaced samples over `[-1, 1]`
with first element `-1` and last element `1`; the θ sequence has exactly 25
evenly spaced samples over `[0, π/2]` with first element `0` and last
element `π/2`; and the grid `w = ξ + iθ` has rows varying θ and columns
varying ξ. -/
theorem C5_parameter_grids :
    xiList.length = 25 ∧ thetaList.length = 25 ∧
    xiF 0 = -1 ∧ xiF 24 = 1 ∧ thetaF 0 = 0 ∧ thetaF 24 = Real.pi / 2 ∧
    (∀ k : ℕ, k + 1 < 25 → xiF (k + 1) - xiF k = 1 / 12) ∧
    (∀ k : ℕ, k + 1 < 25 → thetaF (k + 1) - thetaF k = Real.pi / 48) ∧
    (∀ r c : ℕ, wgrid r c = (xiF c : ℂ) + Complex.I * (thetaF r : ℂ)) := by
  refine ⟨?_, ?_, ?_, ?_, ?_, ?_, ?_, ?_, ?_⟩
  · simp [xiList, xi_steps]
  · simp [thetaList, theta_steps]
  · norm_num [xiF, linspace]
  · norm_num [xiF, linspace, xi_steps]
  · norm_num [thetaF, linspace]
  · unfold thetaF linspace theta_steps
    push_cast
    ring
  · intro k hk
    unfold xiF linspace xi_steps
    push_cast
    ring
  · intro k hk
    unfold thetaF linspace theta_steps
    push_cast
    ring
  · intro r c
    rfl

/-- Witness for C5: the spacing facts instantiated at the first index. -/
theorem C5_parameter_grids_witness :
    xiF (0 + 1) - xiF 0 = 1 / 12 ∧ thetaF (0 + 1) - thetaF 0 = Real.pi / 48 :=
  ⟨C5_parameter_grids.2.2.2.2.2.2.1 0 (by norm_num),
   C5_parameter_grids.2.2.2.2.2.2.2.1 0 (by norm_num)⟩

/-- C6: the mesh coordinate arrays (and the written path) are a
deterministic function of the inputs: two evaluations at equal inputs agree
for every sheet and grid point; no randomness or hidden state enters. -/
theorem C6_deterministic_mesh (e a p e2 a2 p2 : ℝ)
    (he : e = e2) (ha : a = a2) (hp : p = p2) :
    meshX e a p = meshX e2 a2 p2 ∧ meshY e a p = meshY e2 a2 p2 ∧
      meshZ e a p = meshZ e2 a2 p2 ∧ plotWrites e a p = plotWrites e2 a2 p2 := by
  subst he
  subst ha
  subst hp
  exact ⟨rfl, rfl, rfl, rfl⟩

/-- Witness for C6 at the fixed inputs `(elev, azim, alpha) = (32, 45, 45)`. -/
theorem C6_deterministic_mesh_witness :
    meshX 32 45 45 = meshX 32 45 45 ∧ meshY 32 45 45 = meshY 32 45 45 ∧
      meshZ 32 45 45 = meshZ 32 45 45 ∧ plotWrites 32 45 45 = plotWrites 32 45 45 :=
  C6_deterministic_mesh 32 45 45 32 45 45 rfl rfl rfl

set_option maxRecDepth 8000 in
set_option maxHeartbeats 4000000 in
/-- C7: batch mode makes exactly 96 calls, one per azimuth in
`{0, 15, ..., 345}` (24 values) and alpha in `{0, 30, 60, 90}` (4 values),
every call at elevation 32, and the 96 output paths are pairwise distinct,
so exactly 96 files are produced. -/
theorem C7_batch_mode :
    pyRange 0 360 15 =
      [0, 15, 30, 45, 60, 75, 90, 105, 120, 135, 150, 165, 180, 195, 210,
       225, 240, 255, 270, 285, 300, 315, 330, 345] ∧
    pyRange 0 120 30 = [0, 30, 60, 90] ∧
    batchCalls.length = 96 ∧
    (batchCalls.all fun t => t.1 == 32) = true ∧
    batchFiles.length = 96 ∧
    batchFiles.Nodup ∧
    batchFiles = batchCalls.map fun t =>
      filename (t.1 : ℝ) (t.2.1 : ℝ) (t.2.2 : ℝ) := by
  have hf : ∀ m a p : ℕ,
      filename (m : ℝ) (a : ℝ) (p : ℝ) = filenameInt (m : ℤ) (a : ℤ) (p : ℤ) := by
    intro m a p
    unfold filename
    rw [pyInt_natCast, pyInt_natCast, pyInt_natCast]
  refine ⟨by decide, by decide, by decide, by decide, ?_, ?_, ?_⟩
  · unfold batchFiles
    rw [List.length_map]
    decide
  · exact List.Nodup.of_map strCode (by decide)
  · unfold batchFiles
    simp only [hf]

/-- C8: one invocation writes exactly one image file, at the path
`images/calabi_yau_elev<E>_azim<A>_alpha<P>.png` with `E`, `A`, `P` the
inputs truncated to integers, and a pre-existing file at that path is
replaced without warning. -/
theorem C8_single_output_file (elev azim alpha_deg : ℝ)
    (fs : String → Option ℕ) (old img : ℕ)
    (hold : fs (filename elev azim alpha_deg) = some old) :
    plotWrites elev azim alpha_deg =
      ["images/calabi_yau_elev" ++ toString (pyInt elev) ++ "_azim" ++
        toString (pyInt azim) ++ "_alpha" ++ toString (pyInt alpha_deg) ++ ".png"] ∧
    (plotWrites elev azim alpha_deg).length = 1 ∧
    writeFile fs (filename elev azim alpha_deg) img
        (filename elev azim alpha_deg) = some img := by
  refine ⟨rfl, rfl, ?_⟩
  unfold writeFile
  simp

/-- Witness for C8 at `(32, 45, 45)` over a file system that already holds a
file (content 7) at the output path; the write replaces it with content 9. -/
theorem C8_single_output_file_witness :
    plotWrites 32 45 45 =
      ["images/calabi_yau_elev" ++ toString (pyInt 32) ++ "_azim" ++
        toString (pyInt 45) ++ "_alpha" ++ toString (pyInt 45) ++ ".png"] ∧
    (plotWrites 32 45 45).length = 1 ∧
    writeFile (fun _ => some 7) (filename 32 45 45) 9 (filename 32 45 45) = some 9 :=
  C8_single_output_file 32 45 45 (fun _ => some 7) 7 9 rfl

end CalabiYau
